import Mathlib

/-!
# Verification of the mojio real-time processing pipeline

A shallow embedding of `src/mojio/system/realtime_pipeline.py`
(`RealtimeProcessingPipeline`) together with the parts of its collaborators
that the pipeline's control flow depends on:

* `src/mojio/data/dictionary_matching.py` (`DictionaryMatching`), embedded
  concretely (`match_text`, `replace_text`, `apply_dictionary`);
* the substitution-table construction performed inline in the pipeline
  (`buildDictionary` mirrors the dict comprehension over
  `dictionary_manager.list_entries()`);
* the monitor rings (`_record_processing_time`, `_monitor_memory_usage`,
  and the four aggregate accessors).

External collaborators (recognition engine, VAD classifier, noise filter,
punctuation engine, the clock and the process-memory reading) are modelled
as oracle functions in an `Env` record; each call the pipeline makes to a
collaborator is additionally recorded in an `Effect` trace so that
statements about which steps run, and in which order, can be made.

Python exceptions are modelled explicitly: each stateful entry point
returns `State × List Effect × Option String`, where the third component
is `some msg` when an uncaught Python exception escapes the entry point;
the returned state is the state at the moment the exception escapes
(Python mutations performed before the raise are kept).
-/

namespace Mojio

/-- One audio sample (`np.float32`; the pipeline never inspects sample
values, only concatenates frames, so an abstract carrier suffices). -/
abbrev Sample := Int

/-- An audio frame: `np.ndarray` of samples delivered by the input stream. -/
abbrev Frame := List Sample

/-- One row returned by `DictionaryManager.list_entries()`
(`user_dictionary.py` selects the columns `word`, `reading`, `category`;
a SQL `NULL` reading surfaces in Python as `None`, modelled as `none`). -/
structure DictEntry where
  word : String
  reading : Option String
  category : Option String
deriving DecidableEq, Repr

/-- Python truthiness of `entry["reading"]`: `None` and `""` are falsy,
any other string is truthy. -/
def readingTruthy (e : DictEntry) : Bool :=
  match e.reading with
  | none => false
  | some r => r ≠ ""

/-- The value `entry["reading"]` contributes to the substitution table
(only consulted when `readingTruthy` holds, so the default is never
actually used). -/
def readingVal (e : DictEntry) : String :=
  e.reading.getD ""

/-- Insertion into a Python `dict`: an existing key keeps its position and
gets the new value, a new key is appended. -/
def dictInsert (d : List (String × String)) (k v : String) :
    List (String × String) :=
  if d.any (fun p => p.1 = k) then
    d.map (fun p => if p.1 = k then (k, v) else p)
  else
    d ++ [(k, v)]

/-- The dict comprehension in both flush paths of `realtime_pipeline.py`:
`{entry["word"]: entry["reading"] for entry in dictionary_entries if entry["reading"]}`. -/
def buildDictionary (entries : List DictEntry) : List (String × String) :=
  entries.foldl
    (fun d e => if readingTruthy e then dictInsert d e.word (readingVal e) else d)
    []

/-! ## `DictionaryMatching` (src/mojio/data/dictionary_matching.py) -/

/-- One element of the list returned by `DictionaryMatching.match_text`:
`(matched word, replacement, start position, end position)`. -/
structure MatchItem where
  word : String
  repl : String
  start : Nat
  stop : Nat
deriving DecidableEq, Repr

/-- Does the literal pattern `pat` occur in `text` at position `i`
(Python `re.escape(word)` makes the pattern literal)? -/
def matchAt (pat text : List Char) (i : Nat) : Bool :=
  decide ((text.drop i).take pat.length = pat)

/-- `re.finditer` over a literal pattern: scan positions left to right;
on a match at `i`, record `(i, i + len)` and resume at the end of the
match (one position further for a zero-width match). `fuel` bounds the
recursion; callers pass `text.length + 1 - i`. -/
def findIter (pat text : List Char) : Nat → Nat → List (Nat × Nat)
  | 0, _ => []
  | fuel + 1, i =>
    if i > text.length then []
    else if matchAt pat text i then
      (i, i + pat.length) :: findIter pat text fuel (i + max 1 pat.length)
    else if i = text.length then []
    else findIter pat text fuel (i + 1)

/-- Stable insertion by `start`: a new item goes after existing items
with a smaller-or-equal start, preserving original order among equals
exactly as Python's stable `list.sort(key=lambda x: x[2])` does. -/
def insertByStart (m : MatchItem) : List MatchItem → List MatchItem
  | [] => [m]
  | x :: xs =>
    if x.start ≤ m.start then x :: insertByStart m xs else m :: x :: xs

/-- `DictionaryMatching.match_text`: all occurrences of every dictionary
word, then a stable sort by start position (Python `list.sort` is stable). -/
def match_text (text : String) (dictionary : List (String × String)) :
    List MatchItem :=
  let cs := text.toList
  let ms := dictionary.foldl
    (fun acc wr =>
      acc ++ (findIter wr.1.toList cs (cs.length + 1) 0).map
        (fun se => MatchItem.mk wr.1 wr.2 se.1 se.2))
    []
  ms.foldl (fun acc m => insertByStart m acc) []

/-- `DictionaryMatching.replace_text`: replace matched spans back to
front (`for ... in reversed(matches)`). -/
def replace_text (text : String) (ms : List MatchItem) : String :=
  if ms = [] then text
  else
    String.mk <| ms.reverse.foldl
      (fun result m => result.take m.start ++ m.repl.toList ++ result.drop m.stop)
      text.toList

/-- `DictionaryMatching.apply_dictionary` (what
`MatchingManager.apply_dictionary` dispatches to). -/
def apply_dictionary (text : String) (dictionary : List (String × String)) :
    String :=
  replace_text text (match_text text dictionary)

/-! ## Pipeline state (`RealtimeProcessingPipeline.__init__`) -/

/-- The mutable attributes of `RealtimeProcessingPipeline` that its control
flow reads or writes.  `processing_times` and `memory_usage` are the two
monitor rings (`max_processing_times = max_memory_usage = 100`).  Timestamp
fields (`last_gc_time`) are abstracted into the environment. -/
structure Pipeline where
  input_type : String
  vad_enabled : Bool
  speaker_detection_enabled : Bool
  punctuation_enabled : Bool
  history_enabled : Bool
  shortcut_enabled : Bool
  noise_reduction_enabled : Bool
  target_window : Option String
  is_active : Bool
  is_recording : Bool
  audio_buffer : List Frame
  last_recognized_text : String
  processing_times : List ℚ
  memory_usage : List ℚ
  max_memory_limit : ℚ
  shortcut_key : String
deriving DecidableEq, Repr

/-- The state built by `RealtimeProcessingPipeline.__init__`
(`max_memory_limit` comes from `config_manager.get_max_memory_usage()`,
an external value, hence a parameter). -/
def freshPipeline (memLimit : ℚ) : Pipeline where
  input_type := "microphone"
  vad_enabled := true
  speaker_detection_enabled := false
  punctuation_enabled := false
  history_enabled := false
  shortcut_enabled := true
  noise_reduction_enabled := false
  target_window := none
  is_active := false
  is_recording := false
  audio_buffer := []
  last_recognized_text := ""
  processing_times := []
  memory_usage := []
  max_memory_limit := memLimit
  shortcut_key := "ctrl+shift+space"

/-- Calls the pipeline makes to its collaborators, recorded in order.
Constructors carry the arguments relevant to the claims. -/
inductive Effect where
  | transcribeE (audio : List Sample)
  | detectSpeakerChange (audio : List Sample)
  | insertPunct (text : String)
  | applyDict (text : String) (table : List (String × String))
  | addHistory (text : String)
  | injectText (text : String) (target : Option String)
  | vadIsSpeech (frame : Frame)
  | vadReset
  | reduceNoise (frame : Frame)
  | memoryWarning
  | gcCollect
  | stopStream
  | stopListening
  | startListening
  | registerShortcut
  | initAudio
  | initVad
  | initSpeaker
  | initNoise
  | initRecognition
  | initTextInjection
  | initDictionary
  | initMatching
  | initPunct
  | initHistory
  | initShortcutEngine
deriving DecidableEq, Repr

/-- Oracles for the external collaborators and for the quantities the
pipeline samples from its surroundings (elapsed times, process memory,
whether the GC interval has elapsed).  `transcribe` returns `.error` when
`SpeechRecognitionManager.transcribe` raises; `reduce_noise` likewise for
`NoiseReductionManager.reduce_noise` (whose failure the pipeline catches). -/
structure Env where
  transcribe : List Sample → Except String String
  detect_speaker_change : List Sample → Bool
  insert_punctuation : String → String
  entries : List DictEntry
  is_speech : Frame → Bool
  reduce_noise : Frame → Except String Frame
  transcribe_time : ℚ
  frame_time : ℚ
  current_memory : ℚ
  gc_due : Bool

/-- Result of one Python entry point: the state at exit, the trace of
collaborator calls, and `some msg` when an uncaught exception escapes. -/
abbrev PyResult := Pipeline × List Effect × Option String

/-! ## Monitor rings (`_record_processing_time`, `_monitor_memory_usage`,
and the four accessors) -/

/-- `_record_processing_time`: append, then `pop(0)` when the length
exceeds `max_processing_times = 100`. -/
def record_processing_time (s : Pipeline) (t : ℚ) : Pipeline :=
  { s with processing_times :=
      if (s.processing_times ++ [t]).length > 100 then
        (s.processing_times ++ [t]).tail
      else s.processing_times ++ [t] }

/-- `_monitor_memory_usage`: append the current process memory reading,
trim to `max_memory_usage = 100`, and warn when a positive limit is
exceeded by the latest reading. -/
def monitor_memory_usage (s : Pipeline) (current_memory : ℚ) :
    Pipeline × List Effect :=
  ({ s with memory_usage :=
      if (s.memory_usage ++ [current_memory]).length > 100 then
        (s.memory_usage ++ [current_memory]).tail
      else s.memory_usage ++ [current_memory] },
   if s.max_memory_limit > 0 ∧ current_memory > s.max_memory_limit then
    [Effect.memoryWarning] else [])

/-- Python `max` over a non-empty list (`0` is never consulted: both
callers guard on emptiness first). -/
def listMax : List ℚ → ℚ
  | [] => 0
  | x :: xs => xs.foldl max x

/-- `get_average_processing_time`. -/
def get_average_processing_time (s : Pipeline) : ℚ :=
  if s.processing_times = [] then 0
  else s.processing_times.sum / s.processing_times.length

/-- `get_max_processing_time`. -/
def get_max_processing_time (s : Pipeline) : ℚ :=
  if s.processing_times = [] then 0 else listMax s.processing_times

/-- `get_average_memory_usage`. -/
def get_average_memory_usage (s : Pipeline) : ℚ :=
  if s.memory_usage = [] then 0
  else s.memory_usage.sum / s.memory_usage.length

/-- `get_max_memory_usage`. -/
def get_max_memory_usage (s : Pipeline) : ℚ :=
  if s.memory_usage = [] then 0 else listMax s.memory_usage

/-! ## Entry points -/

/-- `_toggle_recording` (the shortcut callback).  Toggle-on clears the
buffer and the latency ring; toggle-off flushes a non-empty buffer inline:
transcribe, optional speaker tagging, optional punctuation, dictionary
substitution when the table is non-empty, optional history persistence,
text injection, update of `last_recognized_text`, then clear the buffer.
A raise from `transcribe` escapes before the clear. -/
def toggle_recording (env : Env) (s : Pipeline) : PyResult :=
  if !s.is_recording then
    ({ s with is_recording := true, audio_buffer := [], processing_times := [] },
      [], none)
  else
    let s := { s with is_recording := false }
    if s.audio_buffer ≠ [] then
      let audio_data := s.audio_buffer.flatten
      match env.transcribe audio_data with
      | .error e => (s, [Effect.transcribeE audio_data], some e)
      | .ok t0 =>
        let s := record_processing_time s env.transcribe_time
        let effs := [Effect.transcribeE audio_data]
        let r1 :=
          if s.speaker_detection_enabled then
            (if env.detect_speaker_change audio_data then
              "[話者切り替え] " ++ t0 else t0,
             effs ++ [Effect.detectSpeakerChange audio_data])
          else (t0, effs)
        let r2 :=
          if s.punctuation_enabled then
            (env.insert_punctuation r1.1, r1.2 ++ [Effect.insertPunct r1.1])
          else r1
        let dictionary := buildDictionary env.entries
        let r3 :=
          if dictionary ≠ [] then
            (apply_dictionary r2.1 dictionary,
             r2.2 ++ [Effect.applyDict r2.1 dictionary])
          else r2
        let effs :=
          if s.history_enabled then r3.2 ++ [Effect.addHistory r3.1] else r3.2
        let effs := effs ++ [Effect.injectText r3.1 s.target_window]
        ({ s with last_recognized_text := r3.1, audio_buffer := [] }, effs, none)
    else
      ({ s with audio_buffer := [] }, [], none)

/-- The frame actually classified and buffered by `_audio_callback`:
when noise reduction is enabled the reduced frame, falling back to the
original frame when `reduce_noise` raises (the one caught exception). -/
def noiseProcessed (env : Env) (s : Pipeline) (frame : Frame) : Frame :=
  if s.noise_reduction_enabled then
    match env.reduce_noise frame with
    | .ok f => f
    | .error _ => frame
  else frame

/-- The trace the noise-reduction step contributes. -/
def noiseEffects (s : Pipeline) (frame : Frame) : List Effect :=
  if s.noise_reduction_enabled then [Effect.reduceNoise frame] else []

/-- The tail of `_audio_callback` (runs on every non-early-return path
that does not raise): record total processing time, monitor memory,
GC when the interval elapsed. -/
def callbackTail (env : Env) (s : Pipeline) (effs : List Effect) : PyResult :=
  let s := record_processing_time s env.frame_time
  let r := monitor_memory_usage s env.current_memory
  (r.1, effs ++ r.2 ++ (if env.gc_due then [Effect.gcCollect] else []), none)

/-- `_audio_callback`.  No-op when not recording.  With VAD enabled, a
speech frame is appended; silence with a non-empty buffer flushes inline
(transcribe, optional punctuation, dictionary substitution, injection,
optional history, update of `last_recognized_text`, clear).  With VAD
disabled every frame is appended.  A raise from `transcribe` escapes,
skipping the clear and the monitoring tail. -/
def audio_callback (env : Env) (s : Pipeline) (frame : Frame) : PyResult :=
  if !s.is_recording then (s, [], none)
  else
    let audio_data := noiseProcessed env s frame
    let effs := noiseEffects s frame
    if s.vad_enabled then
      let effs := effs ++ [Effect.vadIsSpeech audio_data]
      if env.is_speech audio_data then
        callbackTail env { s with audio_buffer := s.audio_buffer ++ [audio_data] } effs
      else
        if s.audio_buffer ≠ [] then
          let buffered_audio := s.audio_buffer.flatten
          match env.transcribe buffered_audio with
          | .error e => (s, effs ++ [Effect.transcribeE buffered_audio], some e)
          | .ok t0 =>
            let s := record_processing_time s env.transcribe_time
            let effs := effs ++ [Effect.transcribeE buffered_audio]
            let r1 :=
              if s.punctuation_enabled then
                (env.insert_punctuation t0, effs ++ [Effect.insertPunct t0])
              else (t0, effs)
            let dictionary := buildDictionary env.entries
            let r2 :=
              if dictionary ≠ [] then
                (apply_dictionary r1.1 dictionary,
                 r1.2 ++ [Effect.applyDict r1.1 dictionary])
              else r1
            let effs := r2.2 ++ [Effect.injectText r2.1 s.target_window]
            let effs :=
              if s.history_enabled then effs ++ [Effect.addHistory r2.1] else effs
            callbackTail env
              { s with last_recognized_text := r2.1, audio_buffer := [] } effs
        else
          callbackTail env s effs
    else
      callbackTail env { s with audio_buffer := s.audio_buffer ++ [audio_data] } effs

/-- `stop_processing`.  With `is_active = False` it returns immediately.
Otherwise the very next statement evaluates
`self.audio_manager.current_input` — but `AudioInputManager` never defines
a `current_input` attribute anywhere in the repository (it only has
`current_input_type`), so the attribute lookup raises `AttributeError`
before any teardown runs. -/
def stop_processing (s : Pipeline) : PyResult :=
  if !s.is_active then (s, [], none)
  else (s, [],
    some "AttributeError: 'AudioInputManager' object has no attribute 'current_input'")

/-- `initialize` (success path: every sub-component constructor succeeds;
the `except` clause that wraps failures into `InitializationError` is not
exercised).  Records the wiring calls in order; with `shortcut_enabled`
a fresh shortcut engine is created, the key registered on it and its
listener started — no call tears down previously installed wiring.
Named `setupPipeline` in this development. -/
def setupPipeline (s : Pipeline) (input_type : String)
    (vad_enabled speaker_detection_enabled punctuation_enabled
     history_enabled shortcut_enabled noise_reduction_enabled : Bool) :
    Pipeline × List Effect :=
  let s := { s with
    input_type := input_type
    vad_enabled := vad_enabled
    speaker_detection_enabled := speaker_detection_enabled
    punctuation_enabled := punctuation_enabled
    history_enabled := history_enabled
    shortcut_enabled := shortcut_enabled
    noise_reduction_enabled := noise_reduction_enabled }
  let effs := [Effect.initAudio]
    ++ (if vad_enabled then [Effect.initVad] else [])
    ++ (if speaker_detection_enabled then [Effect.initSpeaker] else [])
    ++ (if noise_reduction_enabled then [Effect.initNoise] else [])
    ++ [Effect.initRecognition, Effect.initTextInjection,
        Effect.initDictionary, Effect.initMatching]
    ++ (if punctuation_enabled then [Effect.initPunct] else [])
    ++ (if history_enabled then [Effect.initHistory] else [])
    ++ (if shortcut_enabled then
        [Effect.initShortcutEngine, Effect.registerShortcut,
         Effect.startListening] else [])
  ({ s with is_active := true }, effs)

/-- Feed a sequence of frames to `_audio_callback`, accumulating the
trace (used only on paths where no exception escapes). -/
def runFrames (env : Env) (s : Pipeline) (frames : List Frame) :
    Pipeline × List Effect :=
  frames.foldl
    (fun acc f =>
      let r := audio_callback env acc.1 f
      (r.1, acc.2 ++ r.2.1))
    (s, [])

/-! ## Trace observations -/

/-- The audio arguments of the `transcribe` calls in a trace. -/
def transcribedAudios (tr : List Effect) : List (List Sample) :=
  tr.filterMap fun e =>
    match e with
    | Effect.transcribeE a => some a
    | _ => none

/-- Is an effect one of the post-processing / delivery steps named by the
flush contract (speaker tagging, punctuation, dictionary substitution,
history persistence, delivery), or the recognition dispatch itself? -/
def isPostEffect (e : Effect) : Bool :=
  match e with
  | Effect.transcribeE _ => true
  | Effect.detectSpeakerChange _ => true
  | Effect.insertPunct _ => true
  | Effect.applyDict _ _ => true
  | Effect.addHistory _ => true
  | Effect.injectText _ _ => true
  | _ => false

/-- A trace restricted to the flush/post-processing steps. -/
def postEffects (tr : List Effect) : List Effect :=
  tr.filter isPostEffect

/-- Number of dictionary-substitution calls in a trace. -/
def applyDictCount (tr : List Effect) : Nat :=
  (tr.filter fun e =>
    match e with
    | Effect.applyDict _ _ => true
    | _ => false).length

/-! ## Helper lemmas -/

theorem transcribedAudios_append (a b : List Effect) :
    transcribedAudios (a ++ b) = transcribedAudios a ++ transcribedAudios b := by
  simp [transcribedAudios]

theorem postEffects_append (a b : List Effect) :
    postEffects (a ++ b) = postEffects a ++ postEffects b := by
  simp [postEffects]

theorem applyDictCount_append (a b : List Effect) :
    applyDictCount (a ++ b) = applyDictCount a + applyDictCount b := by
  simp [applyDictCount]

/-- The monitoring tail adds no recognition call to the trace. -/
theorem transcribedAudios_callbackTail (env : Env) (s : Pipeline)
    (effs : List Effect) :
    transcribedAudios (callbackTail env s effs).2.1 = transcribedAudios effs := by
  unfold callbackTail monitor_memory_usage
  simp only [transcribedAudios_append, transcribedAudios]
  split_ifs <;> simp

/-- The monitoring tail adds no post-processing step to the trace. -/
theorem postEffects_callbackTail (env : Env) (s : Pipeline)
    (effs : List Effect) :
    postEffects (callbackTail env s effs).2.1 = postEffects effs := by
  unfold callbackTail monitor_memory_usage
  simp only [postEffects_append, postEffects]
  split_ifs <;> simp [isPostEffect]

/-- The monitoring tail adds no dictionary-substitution call. -/
theorem applyDictCount_callbackTail (env : Env) (s : Pipeline)
    (effs : List Effect) :
    applyDictCount (callbackTail env s effs).2.1 = applyDictCount effs := by
  unfold callbackTail monitor_memory_usage
  simp only [applyDictCount_append, applyDictCount]
  split_ifs <;> simp

/-- The monitoring tail touches only the two rings. -/
theorem callbackTail_fields (env : Env) (s : Pipeline) (effs : List Effect) :
    (callbackTail env s effs).1.audio_buffer = s.audio_buffer ∧
    (callbackTail env s effs).1.is_recording = s.is_recording ∧
    (callbackTail env s effs).1.vad_enabled = s.vad_enabled ∧
    (callbackTail env s effs).1.noise_reduction_enabled = s.noise_reduction_enabled ∧
    (callbackTail env s effs).2.2 = none :=
  ⟨rfl, rfl, rfl, rfl, rfl⟩

/-- `_audio_callback` is a no-op when not recording. -/
theorem audio_callback_not_recording (env : Env) (s : Pipeline) (f : Frame)
    (hr : s.is_recording = false) : audio_callback env s f = (s, [], none) := by
  unfold audio_callback
  simp [hr]

/-- With VAD disabled (and noise reduction off) a frame received while
recording is appended verbatim and the callback never raises. -/
theorem audio_callback_vad_off (env : Env) (s : Pipeline) (f : Frame)
    (hr : s.is_recording = true) (hv : s.vad_enabled = false)
    (hn : s.noise_reduction_enabled = false) :
    audio_callback env s f =
      callbackTail env { s with audio_buffer := s.audio_buffer ++ [f] } [] := by
  unfold audio_callback noiseProcessed noiseEffects
  simp [hr, hv, hn]

/-- The recognition calls `_toggle_recording` makes: exactly one, on the
concatenated buffer, when toggling off with a non-empty buffer; none
otherwise. -/
theorem toggle_transcribedAudios (env : Env) (s : Pipeline) :
    transcribedAudios (toggle_recording env s).2.1 =
      if s.is_recording = true ∧ s.audio_buffer ≠ [] then
        [s.audio_buffer.flatten]
      else [] := by
  unfold toggle_recording
  by_cases hr : s.is_recording
  · simp only [hr, Bool.not_true, Bool.false_eq_true, if_false]
    by_cases hb : s.audio_buffer = []
    · simp [hb, transcribedAudios]
    · simp only [hb, ne_eq, not_false_eq_true, if_true, hr, true_and, if_pos]
      cases h : env.transcribe s.audio_buffer.flatten with
      | error e => simp [h, transcribedAudios]
      | ok t0 =>
        simp only [h]
        split_ifs <;>
          simp [transcribedAudios_append, transcribedAudios]
  · simp [hr, transcribedAudios]

theorem record_processing_time_speaker (s : Pipeline) (t : ℚ) :
    (record_processing_time s t).speaker_detection_enabled =
      s.speaker_detection_enabled := rfl

theorem record_processing_time_punct (s : Pipeline) (t : ℚ) :
    (record_processing_time s t).punctuation_enabled =
      s.punctuation_enabled := rfl

theorem record_processing_time_history (s : Pipeline) (t : ℚ) :
    (record_processing_time s t).history_enabled = s.history_enabled := rfl

theorem record_processing_time_target (s : Pipeline) (t : ℚ) :
    (record_processing_time s t).target_window = s.target_window := rfl

theorem record_processing_time_buffer (s : Pipeline) (t : ℚ) :
    (record_processing_time s t).audio_buffer = s.audio_buffer := rfl

theorem record_processing_time_last_text (s : Pipeline) (t : ℚ) :
    (record_processing_time s t).last_recognized_text =
      s.last_recognized_text := rfl

theorem record_processing_time_recording (s : Pipeline) (t : ℚ) :
    (record_processing_time s t).is_recording = s.is_recording := rfl

theorem postEffects_noiseEffects (s : Pipeline) (f : Frame) :
    postEffects (noiseEffects s f) = [] := by
  unfold noiseEffects
  split_ifs <;> simp [postEffects, isPostEffect]

theorem postEffects_nil : postEffects [] = [] := rfl

theorem postEffects_cons (e : Effect) (tr : List Effect) :
    postEffects (e :: tr) =
      if isPostEffect e then e :: postEffects tr else postEffects tr := by
  simp [postEffects, List.filter_cons]

theorem noiseEffects_not_post (s : Pipeline) (f : Frame) :
    ∀ a ∈ noiseEffects s f, isPostEffect a = false := by
  intro a ha
  unfold noiseEffects at ha
  by_cases hn : s.noise_reduction_enabled
  · simp [hn] at ha
    subst ha
    rfl
  · simp [hn] at ha

theorem callbackTail_buffer (env : Env) (s : Pipeline) (effs : List Effect) :
    (callbackTail env s effs).1.audio_buffer = s.audio_buffer := rfl

theorem callbackTail_recording (env : Env) (s : Pipeline) (effs : List Effect) :
    (callbackTail env s effs).1.is_recording = s.is_recording := rfl

theorem callbackTail_last_text (env : Env) (s : Pipeline) (effs : List Effect) :
    (callbackTail env s effs).1.last_recognized_text =
      s.last_recognized_text := rfl

theorem callbackTail_err (env : Env) (s : Pipeline) (effs : List Effect) :
    (callbackTail env s effs).2.2 = none := rfl

/-- Toggling on from a non-recording state: raise the flag, clear the
buffer and the latency ring, make no collaborator call. -/
theorem toggle_on_spec (env : Env) (s : Pipeline)
    (hr : s.is_recording = false) :
    toggle_recording env s =
      ({ s with
          is_recording := true
          audio_buffer := []
          processing_times := [] }, [], none) := by
  unfold toggle_recording
  simp [hr]

/-- Folding frames from an arbitrary trace accumulator just prepends the
accumulator to the trace `runFrames` would produce. -/
theorem runFrames_shift (env : Env) : ∀ (gs : List Frame) (p : Pipeline)
    (tr : List Effect),
    gs.foldl
      (fun acc x =>
        ((audio_callback env acc.1 x).1, acc.2 ++ (audio_callback env acc.1 x).2.1))
      (p, tr)
    = ((runFrames env p gs).1, tr ++ (runFrames env p gs).2) := by
  intro gs
  induction gs with
  | nil =>
    intro p tr
    simp [runFrames]
  | cons x xs ih =>
    intro p tr
    rw [List.foldl_cons]
    have h2 : runFrames env p (x :: xs)
        = ((runFrames env (audio_callback env p x).1 xs).1,
           (audio_callback env p x).2.1 ++
             (runFrames env (audio_callback env p x).1 xs).2) :=
      ih (audio_callback env p x).1 ((audio_callback env p x).2.1)
    rw [h2, ← List.append_assoc]
    exact ih (audio_callback env p x).1 (tr ++ (audio_callback env p x).2.1)

theorem runFrames_cons (env : Env) (s : Pipeline) (f : Frame)
    (fs : List Frame) :
    runFrames env s (f :: fs) =
      ((runFrames env (audio_callback env s f).1 fs).1,
       (audio_callback env s f).2.1 ++
         (runFrames env (audio_callback env s f).1 fs).2) :=
  runFrames_shift env fs (audio_callback env s f).1
    ((audio_callback env s f).2.1)

/-- Frames delivered while not recording contribute nothing at all. -/
theorem runFrames_not_recording (env : Env) (s : Pipeline) (gs : List Frame)
    (hr : s.is_recording = false) : runFrames env s gs = (s, []) := by
  induction gs with
  | nil => rfl
  | cons g gs ih =>
    rw [runFrames_cons, audio_callback_not_recording env s g hr]
    simpa using ih

/-- While recording with VAD disabled (noise reduction off), feeding
frames appends exactly those frames in order, preserves the control
flags, and performs no recognition call. -/
theorem runFrames_vad_off (env : Env) : ∀ (fs : List Frame) (s : Pipeline),
    s.is_recording = true → s.vad_enabled = false →
    s.noise_reduction_enabled = false →
    (runFrames env s fs).1.audio_buffer = s.audio_buffer ++ fs ∧
    (runFrames env s fs).1.is_recording = true ∧
    (runFrames env s fs).1.vad_enabled = false ∧
    (runFrames env s fs).1.noise_reduction_enabled = false ∧
    transcribedAudios (runFrames env s fs).2 = [] := by
  intro fs
  induction fs with
  | nil =>
    intro s hr hv hn
    exact ⟨by simp [runFrames], hr, hv, hn, rfl⟩
  | cons f fs ih =>
    intro s hr hv hn
    rw [runFrames_cons]
    have hcb := audio_callback_vad_off env s f hr hv hn
    have hb1 : (audio_callback env s f).1.audio_buffer =
        s.audio_buffer ++ [f] := by rw [hcb, callbackTail_buffer]
    have hr1 : (audio_callback env s f).1.is_recording = true := by
      rw [hcb, callbackTail_recording]; exact hr
    have hv1 : (audio_callback env s f).1.vad_enabled = false := by
      rw [hcb]; exact hv
    have hn1 : (audio_callback env s f).1.noise_reduction_enabled = false := by
      rw [hcb]; exact hn
    have htr : transcribedAudios (audio_callback env s f).2.1 = [] := by
      rw [hcb, transcribedAudios_callbackTail]; rfl
    obtain ⟨i1, i2, i3, i4, i5⟩ := ih (audio_callback env s f).1 hr1 hv1 hn1
    refine ⟨?_, i2, i3, i4, ?_⟩
    · show (runFrames env (audio_callback env s f).1 fs).1.audio_buffer = _
      rw [i1, hb1, List.append_assoc]
      simp
    · show transcribedAudios
        ((audio_callback env s f).2.1 ++
          (runFrames env (audio_callback env s f).1 fs).2) = []
      rw [transcribedAudios_append, htr, i5]
      rfl

/-! ## Dictionary-table lemmas -/

/-- The substitution table ignores entries with a falsy reading. -/
theorem buildDictionary_filter (entries : List DictEntry) :
    buildDictionary entries =
      buildDictionary (entries.filter readingTruthy) := by
  have key : ∀ (l : List DictEntry) (d : List (String × String)),
      l.foldl
        (fun d e =>
          if readingTruthy e then dictInsert d e.word (readingVal e) else d) d
      = (l.filter readingTruthy).foldl
        (fun d e =>
          if readingTruthy e then dictInsert d e.word (readingVal e) else d)
        d := by
    intro l
    induction l with
    | nil => intro d; rfl
    | cons e l ih =>
      intro d
      by_cases ht : readingTruthy e <;>
        simp [List.filter_cons, ht, List.foldl_cons, ih]
  exact key entries []

/-- Removing one falsy-reading entry leaves the table unchanged. -/
theorem buildDictionary_drop (l1 l2 : List DictEntry) (e : DictEntry)
    (he : readingTruthy e = false) :
    buildDictionary (l1 ++ e :: l2) = buildDictionary (l1 ++ l2) := by
  rw [buildDictionary_filter (l1 ++ e :: l2),
    buildDictionary_filter (l1 ++ l2)]
  simp [List.filter_append, List.filter_cons, he]

/-- `_toggle_recording` consults the dictionary entries only through the
substitution table it builds. -/
theorem toggle_entries_congr (env : Env) (ents : List DictEntry)
    (s : Pipeline)
    (h : buildDictionary env.entries = buildDictionary ents) :
    toggle_recording env s =
      toggle_recording { env with entries := ents } s := by
  unfold toggle_recording
  simp only [h]

/-- `_audio_callback` consults the dictionary entries only through the
substitution table it builds. -/
theorem callback_entries_congr (env : Env) (ents : List DictEntry)
    (s : Pipeline) (frame : Frame)
    (h : buildDictionary env.entries = buildDictionary ents) :
    audio_callback env s frame =
      audio_callback { env with entries := ents } s frame := by
  unfold audio_callback callbackTail noiseProcessed noiseEffects
    monitor_memory_usage record_processing_time
  simp only [h]

theorem applyDictCount_noiseEffects (s : Pipeline) (f : Frame) :
    applyDictCount (noiseEffects s f) = 0 := by
  unfold noiseEffects
  split_ifs <;> rfl

/-- An empty substitution table means no dictionary transform call in a
toggle-off flush. -/
theorem toggle_applyDictCount_zero (env : Env) (s : Pipeline)
    (hd : buildDictionary env.entries = []) :
    applyDictCount (toggle_recording env s).2.1 = 0 := by
  unfold toggle_recording
  by_cases hr : s.is_recording
  · simp only [hr, Bool.not_true, Bool.false_eq_true, if_false]
    by_cases hb : s.audio_buffer = []
    · simp [hb, applyDictCount]
    · simp only [hb, ne_eq, not_false_eq_true, if_true]
      cases h : env.transcribe s.audio_buffer.flatten with
      | error e => simp [h, applyDictCount]
      | ok t =>
        simp only [h, hd]
        split_ifs <;> simp_all [applyDictCount_append, applyDictCount]
  · simp [hr, applyDictCount]

/-- An empty substitution table means no dictionary transform call in a
VAD-silence flush (or any other frame-callback path). -/
theorem callback_applyDictCount_zero (env : Env) (s : Pipeline)
    (frame : Frame) (hd : buildDictionary env.entries = []) :
    applyDictCount (audio_callback env s frame).2.1 = 0 := by
  unfold audio_callback
  by_cases hr : s.is_recording
  · simp only [hr, Bool.not_true, Bool.false_eq_true, if_false]
    by_cases hv : s.vad_enabled
    · by_cases hs : env.is_speech (noiseProcessed env s frame)
      · simp only [hv, hs, if_true]
        rw [applyDictCount_callbackTail, applyDictCount_append,
          applyDictCount_noiseEffects]
        rfl
      · simp only [hv, hs, if_true, Bool.false_eq_true, if_false]
        by_cases hb : s.audio_buffer = []
        · simp only [hb, ne_eq, not_true_eq_false, if_false]
          rw [applyDictCount_callbackTail, applyDictCount_append,
            applyDictCount_noiseEffects]
          rfl
        · simp only [hb, ne_eq, not_false_eq_true, if_true]
          cases h : env.transcribe s.audio_buffer.flatten with
          | error e =>
            simp only [h]
            rw [applyDictCount_append, applyDictCount_append,
              applyDictCount_noiseEffects]
            rfl
          | ok t =>
            simp only [h, hd]
            split_ifs <;>
              first
                | (rw [applyDictCount_callbackTail]
                   simp only [applyDictCount_append,
                     applyDictCount_noiseEffects]
                   rfl)
                | simp_all
    · simp only [hv, Bool.false_eq_true, if_false]
      rw [applyDictCount_callbackTail, applyDictCount_noiseEffects]
  · simp [hr, applyDictCount]

/-- Applying the dictionary transform with an empty table is the
identity. -/
theorem apply_dictionary_nil (t : String) : apply_dictionary t [] = t := by
  simp [apply_dictionary, match_text, replace_text]

/-! ## Concrete instances used by counterexamples and witnesses -/

/-- A benign environment: recognition succeeds with `"t"`, speaker change
always detected, punctuation appends a period, empty user dictionary,
every frame classified silence, noise filter is the identity. -/
def exEnv : Env where
  transcribe := fun _ => Except.ok "t"
  detect_speaker_change := fun _ => true
  insert_punctuation := fun t => t ++ "."
  entries := []
  is_speech := fun _ => false
  reduce_noise := fun f => Except.ok f
  transcribe_time := 1
  frame_time := 2
  current_memory := 3
  gc_due := false

/-- `exEnv` with a failing recognition engine. -/
def exEnvErr : Env := { exEnv with transcribe := fun _ => Except.error "boom" }

/-- A recording pipeline holding one buffered frame, all optional
post-processing disabled. -/
def exRecording : Pipeline :=
  { freshPipeline 0 with is_recording := true, audio_buffer := [[1]] }

/-- `exRecording` with speaker detection enabled. -/
def exRecordingSpk : Pipeline :=
  { exRecording with speaker_detection_enabled := true }

/-- `exRecording` with speaker detection and history persistence on. -/
def exRecordingSpkHist : Pipeline :=
  { exRecording with speaker_detection_enabled := true, history_enabled := true }

/-! ## C1 -/

/-- Counterexample to claim C1: with speaker detection and history
enabled, the same one-frame buffer and the same configuration flags, the
toggle-off flush and the VAD-silence flush are *not* the same path: their
post-processing step sequences differ (the toggle path runs speaker
tagging, and persists history before delivery while the VAD path delivers
first) and they produce different final texts. -/
theorem C1_counterexample :
    ¬ (postEffects (toggle_recording exEnv exRecordingSpkHist).2.1 =
         postEffects (audio_callback exEnv exRecordingSpkHist [2]).2.1 ∧
       (toggle_recording exEnv exRecordingSpkHist).1.last_recognized_text =
         (audio_callback exEnv exRecordingSpkHist [2]).1.last_recognized_text) := by
  decide

/-- Amended C1: the two flush paths coincide exactly when speaker
detection and history persistence are both disabled — then they perform
the same post-processing steps in the same order on the same buffer,
produce the same final text and buffer, and propagate the same error.
(In general the toggle path additionally applies speaker-change tagging,
and persists history before delivery where the VAD path delivers first.) -/
theorem C1_flush_paths_agree_without_speaker_history (env : Env)
    (s : Pipeline) (frame : Frame)
    (hr : s.is_recording = true) (hv : s.vad_enabled = true)
    (hb : s.audio_buffer ≠ [])
    (hsil : env.is_speech (noiseProcessed env s frame) = false)
    (hspk : s.speaker_detection_enabled = false)
    (hhist : s.history_enabled = false) :
    postEffects (toggle_recording env s).2.1 =
      postEffects (audio_callback env s frame).2.1 ∧
    (toggle_recording env s).1.last_recognized_text =
      (audio_callback env s frame).1.last_recognized_text ∧
    (toggle_recording env s).1.audio_buffer =
      (audio_callback env s frame).1.audio_buffer ∧
    (toggle_recording env s).2.2 = (audio_callback env s frame).2.2 := by
  cases h : env.transcribe s.audio_buffer.flatten with
  | error e =>
    unfold toggle_recording audio_callback
    simp only [hr, hv, hb, hsil, h, Bool.not_true, Bool.false_eq_true,
      if_false, if_true, ne_eq, not_false_eq_true, not_true_eq_false]
    refine ⟨?_, by trivial, by trivial, by trivial⟩
    rw [postEffects_append, postEffects_append, postEffects_noiseEffects]
    simp [postEffects_cons, postEffects_nil, isPostEffect]
  | ok t =>
    unfold toggle_recording audio_callback
    by_cases hp : s.punctuation_enabled <;>
      by_cases hd : buildDictionary env.entries = [] <;>
        simp [hr, hv, hb, hsil, h, hp, hd, hspk, hhist,
          postEffects_append, postEffects_noiseEffects,
          postEffects_cons, postEffects_nil, isPostEffect,
          record_processing_time_speaker,
          record_processing_time_punct, record_processing_time_history,
          record_processing_time_target, postEffects_callbackTail,
          callbackTail_buffer, callbackTail_last_text, callbackTail_err]

/-- Witness for C1: with all optional steps off, the two flush paths
agree at a concrete one-frame buffer. -/
theorem C1_witness :
    exRecording.is_recording = true ∧ exRecording.vad_enabled = true ∧
    exRecording.audio_buffer ≠ [] ∧
    exEnv.is_speech (noiseProcessed exEnv exRecording [2]) = false ∧
    exRecording.speaker_detection_enabled = false ∧
    exRecording.history_enabled = false ∧
    (postEffects (toggle_recording exEnv exRecording).2.1 =
      postEffects (audio_callback exEnv exRecording [2]).2.1 ∧
     (toggle_recording exEnv exRecording).1.last_recognized_text =
      (audio_callback exEnv exRecording [2]).1.last_recognized_text ∧
     (toggle_recording exEnv exRecording).1.audio_buffer =
      (audio_callback exEnv exRecording [2]).1.audio_buffer ∧
     (toggle_recording exEnv exRecording).2.2 =
      (audio_callback exEnv exRecording [2]).2.2) :=
  ⟨by decide, by decide, by decide, by decide, by decide, by decide,
   C1_flush_paths_agree_without_speaker_history exEnv exRecording [2]
     (by decide) (by decide) (by decide) (by decide) (by decide) (by decide)⟩

/-! ## C3 -/

theorem transcribedAudios_noiseEffects (s : Pipeline) (f : Frame) :
    transcribedAudios (noiseEffects s f) = [] := by
  unfold noiseEffects
  split_ifs <;> simp [transcribedAudios]

/-- Claim C3: in every state, neither flush path invokes the recognition
engine when the utterance buffer is empty — both `_toggle_recording` and
`_audio_callback` produce a trace without a `transcribe` call. -/
theorem C3_empty_buffer_never_transcribes (env : Env) (s : Pipeline)
    (frame : Frame) (hb : s.audio_buffer = []) :
    transcribedAudios (toggle_recording env s).2.1 = [] ∧
    transcribedAudios (audio_callback env s frame).2.1 = [] := by
  refine ⟨by simp [toggle_transcribedAudios, hb], ?_⟩
  unfold audio_callback
  by_cases hr : s.is_recording
  · simp only [hr, Bool.not_true, Bool.false_eq_true, if_false]
    by_cases hv : s.vad_enabled
    · by_cases hs : env.is_speech (noiseProcessed env s frame)
      · simp only [hv, hs, if_true]
        rw [transcribedAudios_callbackTail, transcribedAudios_append,
          transcribedAudios_noiseEffects]
        simp [transcribedAudios]
      · simp only [hv, hs, if_true, Bool.false_eq_true, if_false, hb, ne_eq,
          not_true_eq_false]
        rw [transcribedAudios_callbackTail, transcribedAudios_append,
          transcribedAudios_noiseEffects]
        simp [transcribedAudios]
    · simp only [hv, Bool.false_eq_true, if_false]
      rw [transcribedAudios_callbackTail, transcribedAudios_noiseEffects]
  · simp [hr, transcribedAudios]

/-- Witness for C3 at a concrete empty-buffer recording state. -/
theorem C3_witness :
    ({ freshPipeline 0 with is_recording := true } : Pipeline).audio_buffer
        = [] ∧
    transcribedAudios
        (toggle_recording exEnv { freshPipeline 0 with is_recording := true }).2.1
      = [] ∧
    transcribedAudios
        (audio_callback exEnv { freshPipeline 0 with is_recording := true } [7]).2.1
      = [] := by
  refine ⟨by decide, ?_, ?_⟩
  · exact (C3_empty_buffer_never_transcribes exEnv
      { freshPipeline 0 with is_recording := true } [7] (by decide)).1
  · exact (C3_empty_buffer_never_transcribes exEnv
      { freshPipeline 0 with is_recording := true } [7] (by decide)).2

/-! ## C2 -/

/-- Counterexample to claim C2: with a failing recognition engine and one
buffered frame, a VAD-silence flush lets the exception escape to the
caller of the frame callback instead of absorbing it internally. -/
theorem C2_counterexample :
    (audio_callback exEnvErr exRecording [2]).2.2 ≠ none := by
  decide

/-- Amended C2: when `transcribe` raises during a flush, the exception
propagates out of the frame callback (and out of `toggle`); the
VAD-triggered flush leaves the whole pipeline state unchanged (still
`Recording`, same last-recognized-text), and the toggle-off flush changes
only the recording flag. -/
theorem C2_transcribe_error_propagates_state_preserved (env : Env)
    (s : Pipeline) (frame : Frame)
    (hr : s.is_recording = true) (hv : s.vad_enabled = true)
    (hb : s.audio_buffer ≠ [])
    (hsil : env.is_speech (noiseProcessed env s frame) = false)
    (herr : (env.transcribe s.audio_buffer.flatten).isOk = false) :
    (audio_callback env s frame).1 = s ∧
    (audio_callback env s frame).2.2.isSome = true ∧
    (toggle_recording env s).1 = { s with is_recording := false } ∧
    (toggle_recording env s).2.2.isSome = true := by
  cases h : env.transcribe s.audio_buffer.flatten with
  | ok t => rw [h] at herr; simp [Except.isOk, Except.toBool] at herr
  | error e =>
    refine ⟨?_, ?_, ?_, ?_⟩
    · unfold audio_callback
      simp [hr, hv, hsil, hb, h]
    · unfold audio_callback
      simp [hr, hv, hsil, hb, h]
    · unfold toggle_recording
      simp [hr, hb, h]
    · unfold toggle_recording
      simp [hr, hb, h]

/-- Witness for C2 at the failing engine and a one-frame buffer. -/
theorem C2_witness :
    exRecording.is_recording = true ∧ exRecording.vad_enabled = true ∧
    exRecording.audio_buffer ≠ [] ∧
    exEnvErr.is_speech (noiseProcessed exEnvErr exRecording [2]) = false ∧
    (exEnvErr.transcribe exRecording.audio_buffer.flatten).isOk = false ∧
    ((audio_callback exEnvErr exRecording [2]).1 = exRecording ∧
     (audio_callback exEnvErr exRecording [2]).2.2.isSome = true ∧
     (toggle_recording exEnvErr exRecording).1 =
       { exRecording with is_recording := false } ∧
     (toggle_recording exEnvErr exRecording).2.2.isSome = true) :=
  ⟨by decide, by decide, by decide, by decide, by decide,
   C2_transcribe_error_propagates_state_preserved exEnvErr exRecording [2]
     (by decide) (by decide) (by decide) (by decide) (by decide)⟩

/-! ## C4 -/

/-- Claim C4: with VAD disabled (noise reduction off), frames fed while
not recording contribute nothing; after toggle-on, feeding any sequence
of frames and toggling off dispatches exactly one utterance to the
recognition engine, whose audio is the concatenation of exactly those
frames in arrival order. -/
theorem C4_vad_disabled_single_utterance (env : Env) (s0 : Pipeline)
    (gs fs : List Frame)
    (h1 : s0.is_recording = false) (h2 : s0.vad_enabled = false)
    (h3 : s0.noise_reduction_enabled = false) (hfs : fs ≠ []) :
    runFrames env s0 gs = (s0, []) ∧
    transcribedAudios (toggle_recording env s0).2.1 = [] ∧
    transcribedAudios (runFrames env (toggle_recording env s0).1 fs).2 = [] ∧
    transcribedAudios
      (toggle_recording env
        (runFrames env (toggle_recording env s0).1 fs).1).2.1
      = [fs.flatten] := by
  have hs1 : (toggle_recording env s0).1 =
      { s0 with
          is_recording := true
          audio_buffer := []
          processing_times := [] } := by
    rw [toggle_on_spec env s0 h1]
  have hrec1 : (toggle_recording env s0).1.is_recording = true := by rw [hs1]
  have hvad1 : (toggle_recording env s0).1.vad_enabled = false := by
    rw [hs1]; exact h2
  have hn1 : (toggle_recording env s0).1.noise_reduction_enabled = false := by
    rw [hs1]; exact h3
  have hbuf1 : (toggle_recording env s0).1.audio_buffer = [] := by rw [hs1]
  obtain ⟨r1, r2, r3, r4, r5⟩ :=
    runFrames_vad_off env fs (toggle_recording env s0).1 hrec1 hvad1 hn1
  refine ⟨runFrames_not_recording env s0 gs h1, ?_, r5, ?_⟩
  · rw [toggle_transcribedAudios]
    simp [h1]
  · rw [toggle_transcribedAudios]
    have hb : (runFrames env (toggle_recording env s0).1 fs).1.audio_buffer
        = fs := by
      rw [r1, hbuf1]
      rfl
    simp [r2, hb, hfs]

/-- A fresh pipeline with VAD disabled. -/
def exVadOff : Pipeline := { freshPipeline 0 with vad_enabled := false }

/-- Witness for C4: scenario A — three frames before toggle-on contribute
nothing, two frames after are flushed as one two-frame utterance. -/
theorem C4_witness :
    exVadOff.is_recording = false ∧ exVadOff.vad_enabled = false ∧
    exVadOff.noise_reduction_enabled = false ∧
    ([[4], [5]] : List Frame) ≠ [] ∧
    (runFrames exEnv exVadOff [[1], [2], [3]] = (exVadOff, []) ∧
     transcribedAudios (toggle_recording exEnv exVadOff).2.1 = [] ∧
     transcribedAudios
       (runFrames exEnv (toggle_recording exEnv exVadOff).1 [[4], [5]]).2 = [] ∧
     transcribedAudios
       (toggle_recording exEnv
         (runFrames exEnv (toggle_recording exEnv exVadOff).1 [[4], [5]]).1).2.1
       = [List.flatten [[4], [5]]]) :=
  ⟨by decide, by decide, by decide, by decide,
   C4_vad_disabled_single_utterance exEnv exVadOff [[1], [2], [3]] [[4], [5]]
     (by decide) (by decide) (by decide) (by decide)⟩

/-! ## C5 -/

/-- Counterexample to claim C5: on a toggle-off flush whose `transcribe`
call raises, the utterance buffer is *not* cleared when the flush path
completes (the exception escapes before `audio_buffer.clear()`). -/
theorem C5_counterexample :
    (toggle_recording exEnvErr exRecording).1.audio_buffer ≠ [] := by
  decide

/-- Amended C5: a flush clears the utterance buffer exactly when the
recognition step succeeds; when `transcribe` raises, both flush paths
leave the buffer holding all of its frames (the clear is skipped). -/
theorem C5_buffer_cleared_iff_transcribe_ok (env : Env) (s : Pipeline)
    (frame : Frame)
    (hr : s.is_recording = true) (hv : s.vad_enabled = true)
    (hb : s.audio_buffer ≠ [])
    (hsil : env.is_speech (noiseProcessed env s frame) = false) :
    (toggle_recording env s).1.audio_buffer =
      (if (env.transcribe s.audio_buffer.flatten).isOk then []
       else s.audio_buffer) ∧
    (audio_callback env s frame).1.audio_buffer =
      (if (env.transcribe s.audio_buffer.flatten).isOk then []
       else s.audio_buffer) := by
  cases h : env.transcribe s.audio_buffer.flatten with
  | error e =>
    constructor
    · unfold toggle_recording
      simp [hr, hb, h, Except.isOk, Except.toBool]
    · unfold audio_callback
      simp [hr, hv, hsil, hb, h, Except.isOk, Except.toBool]
  | ok t =>
    constructor
    · unfold toggle_recording
      simp [hr, hb, h, Except.isOk, Except.toBool]
    · unfold audio_callback
      simp [hr, hv, hsil, hb, h, Except.isOk, Except.toBool, callbackTail_buffer]

/-- Witness for C5: success clears, failure retains, at a one-frame
buffer. -/
theorem C5_witness :
    exRecording.is_recording = true ∧ exRecording.vad_enabled = true ∧
    exRecording.audio_buffer ≠ [] ∧
    exEnvErr.is_speech (noiseProcessed exEnvErr exRecording [3]) = false ∧
    ((toggle_recording exEnvErr exRecording).1.audio_buffer =
      (if (exEnvErr.transcribe exRecording.audio_buffer.flatten).isOk then []
       else exRecording.audio_buffer) ∧
     (audio_callback exEnvErr exRecording [3]).1.audio_buffer =
      (if (exEnvErr.transcribe exRecording.audio_buffer.flatten).isOk then []
       else exRecording.audio_buffer)) :=
  ⟨by decide, by decide, by decide, by decide,
   C5_buffer_cleared_iff_transcribe_ok exEnvErr exRecording [3]
     (by decide) (by decide) (by decide) (by decide)⟩

/-! ## C6 -/

/-- Counterexample to claim C6: toggling on from the fresh idle state
performs no call at all to the `VoiceActivityGate`'s `reset()` — the
claim's required `reset()` invocation is absent from the trace. -/
theorem C6_counterexample :
    Effect.vadReset ∉ (toggle_recording exEnv (freshPipeline 0)).2.1 := by
  decide

/-- Amended C6: toggling on while not recording raises the recording
flag, clears the utterance buffer and the latency ring, and does nothing
else: no `VoiceActivityGate.reset()` call is made (empty trace) and the
memory ring is untouched. -/
theorem C6_toggle_on_clears_buffer_and_latency_ring (env : Env)
    (s : Pipeline) (hr : s.is_recording = false) :
    toggle_recording env s =
      ({ s with
          is_recording := true
          audio_buffer := []
          processing_times := [] }, [], none) := by
  unfold toggle_recording
  simp [hr]

/-- Witness for C6 at the fresh pipeline state. -/
theorem C6_witness :
    (freshPipeline 0).is_recording = false ∧
    toggle_recording exEnv (freshPipeline 0) =
      ({ freshPipeline 0 with
          is_recording := true
          audio_buffer := []
          processing_times := [] }, [], none) :=
  ⟨by decide,
   C6_toggle_on_clears_buffer_and_latency_ring exEnv (freshPipeline 0)
     (by decide)⟩

/-! ## C7 -/

/-- Counterexample to claim C7: initializing twice in a row (shortcut
wiring enabled both times) produces a combined trace with no listener
teardown at all — the previously registered hotkey listener is never
released before the new wiring is installed. -/
theorem C7_counterexample :
    Effect.stopListening ∉
      ((setupPipeline (freshPipeline 0) "microphone"
          true false false false true false).2 ++
        (setupPipeline
          (setupPipeline (freshPipeline 0) "microphone"
            true false false false true false).1 "microphone"
          true false false false true false).2) := by
  decide

/-- Amended C7: `initialize` never tears anything down — its trace
contains no `stop_listening` — and each call with the shortcut flag set
starts one additional listener on a freshly created shortcut engine,
leaving any previously started listener running. -/
theorem C7_reinit_no_teardown (s : Pipeline) (it : String)
    (v sp pu hi sh no : Bool) :
    (setupPipeline s it v sp pu hi sh no).2.count Effect.stopListening = 0 ∧
    (setupPipeline s it v sp pu hi sh no).2.count Effect.startListening =
      (if sh then 1 else 0) := by
  cases v <;> cases sp <;> cases pu <;> cases hi <;> cases sh <;> cases no <;>
    exact ⟨rfl, rfl⟩

/-! ## C8 -/

/-- Claim C8 is right and the code is wrong: `stop_processing` on a
never-initialized pipeline is indeed a silent no-op, but on any
initialized pipeline the lookup `self.audio_manager.current_input`
raises `AttributeError` (the attribute is never defined anywhere in the
repository), so no teardown happens and the call is not safe. -/
theorem C8_stop_uninitialized_noop_and_initialized_raises :
    stop_processing (freshPipeline 0) = (freshPipeline 0, [], none) ∧
    (stop_processing { freshPipeline 0 with is_active := true }).2.2 =
      some "AttributeError: 'AudioInputManager' object has no attribute 'current_input'" := by
  constructor <;> decide

/-! ## C9 -/

/-- Claim C9: starting from rings within the 100-sample bound, recording
any sequence of latency (resp. memory) samples keeps each ring at no more
than 100 entries; inserting into a full ring drops the oldest entry; and
all four aggregate accessors return `0` on an empty ring instead of
failing. -/
theorem C9_monitor_rings_bounded_and_empty_accessors (s : Pipeline)
    (samples : List ℚ) (t c : ℚ)
    (hp : s.processing_times.length ≤ 100)
    (hm : s.memory_usage.length ≤ 100) :
    (samples.foldl record_processing_time s).processing_times.length ≤ 100 ∧
    (samples.foldl (fun st x => (monitor_memory_usage st x).1) s).memory_usage.length
      ≤ 100 ∧
    (s.processing_times.length = 100 →
      (record_processing_time s t).processing_times =
        s.processing_times.tail ++ [t]) ∧
    (s.memory_usage.length = 100 →
      ((monitor_memory_usage s c).1).memory_usage =
        s.memory_usage.tail ++ [c]) ∧
    (s.processing_times = [] →
      get_average_processing_time s = 0 ∧ get_max_processing_time s = 0) ∧
    (s.memory_usage = [] →
      get_average_memory_usage s = 0 ∧ get_max_memory_usage s = 0) := by
  have hrec : ∀ (st : Pipeline) (x : ℚ), st.processing_times.length ≤ 100 →
      (record_processing_time st x).processing_times.length ≤ 100 := by
    intro st x h
    unfold record_processing_time
    dsimp only
    split_ifs with hlen
    · simp only [List.length_tail, List.length_append, List.length_cons,
        List.length_nil]
      omega
    · simp only [List.length_append, List.length_cons, List.length_nil] at hlen ⊢
      omega
  have hmon : ∀ (st : Pipeline) (x : ℚ), st.memory_usage.length ≤ 100 →
      ((monitor_memory_usage st x).1).memory_usage.length ≤ 100 := by
    intro st x h
    unfold monitor_memory_usage
    dsimp only
    split_ifs with hlen
    · simp only [List.length_tail, List.length_append, List.length_cons,
        List.length_nil]
      omega
    · simp only [List.length_append, List.length_cons, List.length_nil] at hlen ⊢
      omega
  refine ⟨?_, ?_, ?_, ?_, ?_, ?_⟩
  · clear hm
    induction samples generalizing s with
    | nil => exact hp
    | cons x xs ih => exact ih _ (hrec s x hp)
  · clear hp
    induction samples generalizing s with
    | nil => exact hm
    | cons x xs ih => exact ih _ (hmon s x hm)
  · intro h100
    have hne : s.processing_times ≠ [] := by
      intro h; rw [h] at h100; simp at h100
    unfold record_processing_time
    have : (s.processing_times ++ [t]).length > 100 := by simp [h100]
    simp only [this, if_true]
    obtain ⟨a, as, ha⟩ := List.exists_cons_of_ne_nil hne
    simp [ha]
  · intro h100
    have hne : s.memory_usage ≠ [] := by
      intro h; rw [h] at h100; simp at h100
    unfold monitor_memory_usage
    have : (s.memory_usage ++ [c]).length > 100 := by simp [h100]
    simp only [this, if_true]
    obtain ⟨a, as, ha⟩ := List.exists_cons_of_ne_nil hne
    simp [ha]
  · intro h
    exact ⟨by simp [get_average_processing_time, h],
      by simp [get_max_processing_time, h]⟩
  · intro h
    exact ⟨by simp [get_average_memory_usage, h],
      by simp [get_max_memory_usage, h]⟩

/-- Witness for C9 on the fresh pipeline and a short sample run. -/
theorem C9_witness :
    (freshPipeline 0).processing_times.length ≤ 100 ∧
    (freshPipeline 0).memory_usage.length ≤ 100 ∧
    (([1, 2, 3] : List ℚ).foldl record_processing_time
      (freshPipeline 0)).processing_times.length ≤ 100 ∧
    get_average_processing_time (freshPipeline 0) = 0 ∧
    get_max_memory_usage (freshPipeline 0) = 0 := by
  have h := C9_monitor_rings_bounded_and_empty_accessors (freshPipeline 0)
    [1, 2, 3] 5 7 (by decide) (by decide)
  exact ⟨by decide, by decide, h.1,
    (h.2.2.2.2.1 (by decide)).1, (h.2.2.2.2.2 (by decide)).2⟩

/-! ## C10 -/

/-- Claim C10: the substitution table is built only from dictionary
entries whose reading is truthy (non-`None`, non-empty) — formally, the
table is unchanged by restricting to such entries; removing an entry with
an empty or missing reading changes neither flush path at all; and when
no entry has a truthy reading the table is empty, so neither flush path
invokes the dictionary transform (and the transform itself is the
identity on an empty table). -/
theorem C10_dictionary_table_nonempty_readings_only :
    (∀ entries : List DictEntry,
      buildDictionary entries = buildDictionary (entries.filter readingTruthy)) ∧
    (∀ (env : Env) (s : Pipeline) (l1 l2 : List DictEntry) (e : DictEntry)
       (frame : Frame),
      readingTruthy e = false → env.entries = l1 ++ e :: l2 →
      toggle_recording env s =
        toggle_recording { env with entries := l1 ++ l2 } s ∧
      audio_callback env s frame =
        audio_callback { env with entries := l1 ++ l2 } s frame) ∧
    (∀ (env : Env) (s : Pipeline) (frame : Frame),
      buildDictionary env.entries = [] →
      applyDictCount (toggle_recording env s).2.1 = 0 ∧
      applyDictCount (audio_callback env s frame).2.1 = 0) ∧
    (∀ t, apply_dictionary t [] = t) := by
  refine ⟨buildDictionary_filter, ?_, ?_, apply_dictionary_nil⟩
  · intro env s l1 l2 e frame he hent
    have hdict : buildDictionary env.entries = buildDictionary (l1 ++ l2) := by
      rw [hent]
      exact buildDictionary_drop l1 l2 e he
    exact ⟨toggle_entries_congr env (l1 ++ l2) s hdict,
      callback_entries_congr env (l1 ++ l2) s frame hdict⟩
  · intro env s frame hd
    exact ⟨toggle_applyDictCount_zero env s hd,
      callback_applyDictCount_zero env s frame hd⟩

/-- An entry with an empty reading and one with a missing reading. -/
def exEntryEmpty : DictEntry := ⟨"word1", some "", none⟩

/-- An environment whose only dictionary entry has an empty reading. -/
def exEnvDict : Env := { exEnv with entries := [exEntryEmpty] }

/-- Witness for C10: a concrete empty-reading entry contributes nothing,
and with it as the only entry the flush makes no dictionary call. -/
theorem C10_witness :
    readingTruthy exEntryEmpty = false ∧
    exEnvDict.entries = [] ++ exEntryEmpty :: [] ∧
    buildDictionary exEnvDict.entries = [] ∧
    (toggle_recording exEnvDict exRecording =
      toggle_recording { exEnvDict with entries := [] ++ [] } exRecording ∧
     audio_callback exEnvDict exRecording [2] =
      audio_callback { exEnvDict with entries := [] ++ [] } exRecording [2]) ∧
    (applyDictCount (toggle_recording exEnvDict exRecording).2.1 = 0 ∧
     applyDictCount (audio_callback exEnvDict exRecording [2]).2.1 = 0) ∧
    apply_dictionary "good weather" [] = "good weather" :=
  ⟨by decide, by decide, by decide,
   C10_dictionary_table_nonempty_readings_only.2.1 exEnvDict exRecording
     [] [] exEntryEmpty [2] (by decide) (by decide),
   C10_dictionary_table_nonempty_readings_only.2.2.1 exEnvDict exRecording
     [2] (by decide),
   C10_dictionary_table_nonempty_readings_only.2.2.2 "good weather"⟩

end Mojio
